import Mathlib

/-!
Verification of the LINE annotation notification dispatcher
(`line_detection_result_handler.py`).

The module is embedded shallowly: the mutable object `LineAnnotationSender`
becomes an explicit state record `SenderState`; each method becomes a pure
function from the state (and a per-call environment carrying the wall-clock
reading and the outcome the recipient store would produce if queried) to a
new state, a list of observable side effects, and an optional raised Python
exception.  Wall-clock time is modelled as an integer number of seconds.
-/

/-- Fields of a `DetectionResult` that the handler reads: the event identifier
(already in the string form `str(detection_result.image_id)` produces) and the
drawn-image path passed to the URL handlers. -/
structure DetectionResult where
  image_id : String
  drawn_image_path : String
deriving DecidableEq

/-- Payload of the buttons template message assembled in
`send_annotation_button_msg`: thumbnail URL, the false-alert feedback text of
the message action, and the URI of the full raw image. -/
structure ButtonsMsg where
  thumbnail_image_url : String
  feedback_text : String
  raw_image_uri : String
deriving DecidableEq

/-- Observable side effects of the handler, in program order: creating the
`RegisteredAudience` table, running the registered-audience query against the
store, invoking each URL handler, and multicasting a message through the LINE
bot API. -/
inductive Effect where
  | createTable : Effect
  | storeFetch : Effect
  | imageUrl : String → Effect
  | rawImageUrl : String → Effect
  | multicast : List String → ButtonsMsg → Effect
deriving DecidableEq

/-- Python exceptions the embedded code can raise: the explicit
`raise("the database is not set")` in `get_registered_audiences`, a failure of
the store query itself, and the `TypeError` from calling a `None`
`detection_result_filter`. -/
inductive PyError where
  | databaseNotSet : PyError
  | storeUnavailable : PyError
  | filterNotCallable : PyError
deriving DecidableEq

/-- State of a `LineAnnotationSender` instance: the watermark time set at
construction, the refresh period, the optional filter callable, whether a
peewee database is configured, the audience roster, and the two URL handlers.
The LINE bot API client itself is opaque and carries no state we track. -/
structure SenderState where
  water_mark_time : Int
  update_audience_period : Nat
  detection_result_filter : Option (DetectionResult → Bool)
  database : Bool
  audience_ids : List String
  image_url_handler : String → String
  raw_image_url_handler : String → String

/-- Per-call environment: the value `arrow.now()` reads during the call and
the outcome of the `RegisteredAudience` query, were it to be executed
(`Except.error ()` models the store being unreachable). -/
structure CallEnv where
  now : Int
  storeResult : Except Unit (List String)

/-- Result of running a method on the mutable object: the state the object is
left in (the object persists even when an exception escapes), the side
effects performed, and the exception that propagated, if any. -/
structure StepResult where
  state : SenderState
  effects : List Effect
  error : Option PyError

/-- Template `false_alert_{image_id}_{meta}` applied with
`.format(image_id=..., meta=...)`. -/
def LINE_FALSE_ALERT_MSG_TEMPLATE (image_id meta : String) : String :=
  "false_alert_" ++ image_id ++ "_" ++ meta

/-- Embeds `get_registered_audiences`: raise if `self.database is None`,
otherwise run the query (recording a store fetch) and return the audience id
set; a failing query raises the store error. -/
def get_registered_audiences (s : SenderState) (storeResult : Except Unit (List String)) :
    Except PyError (List String) × List Effect :=
  if s.database = true then
    match storeResult with
    | Except.ok ids => (Except.ok ids, [Effect.storeFetch])
    | Except.error _ => (Except.error PyError.storeUnavailable, [Effect.storeFetch])
  else
    (Except.error PyError.databaseNotSet, [])

/-- Embeds `audience_update`: when the period is non-zero and a database is
configured and `(now - water_mark_time).total_seconds() > period`, fetch the
registered audiences and replace `audience_ids`.  Note that the source never
writes `water_mark_time` here; the embedding is equally silent about it. -/
def audience_update (s : SenderState) (env : CallEnv) : StepResult :=
  if s.update_audience_period ≠ 0 ∧ s.database = true then
    if (s.update_audience_period : Int) < env.now - s.water_mark_time then
      match get_registered_audiences s env.storeResult with
      | (Except.ok ids, effs) => ⟨{ s with audience_ids := ids }, effs, none⟩
      | (Except.error e, effs) => ⟨s, effs, some e⟩
    else ⟨s, [], none⟩
  else ⟨s, [], none⟩

/-- Embeds `send_annotation_button_msg`: build the buttons message and, if
`self.audience_ids` is truthy (non-empty), multicast it to the audience. -/
def send_annotation_button_msg (s : SenderState)
    (image_url raw_image_url false_alert_feedback_text : String) : List Effect :=
  let buttons_msg : ButtonsMsg :=
    { thumbnail_image_url := image_url
      feedback_text := false_alert_feedback_text
      raw_image_uri := raw_image_url }
  if s.audience_ids = [] then [] else [Effect.multicast s.audience_ids buttons_msg]

/-- Embeds `_handle`: run `audience_update` (an exception there propagates),
then call the filter (a `None` filter raises `TypeError`), and when the filter
accepts, resolve both URLs, format the false-alert feedback text, and send the
buttons message. -/
def handle (s : SenderState) (detection_result : DetectionResult) (env : CallEnv) : StepResult :=
  let r := audience_update s env
  match r.error with
  | some e => ⟨r.state, r.effects, some e⟩
  | none =>
    match r.state.detection_result_filter with
    | none => ⟨r.state, r.effects, some PyError.filterNotCallable⟩
    | some f =>
      if f detection_result then
        let image_url := r.state.image_url_handler detection_result.drawn_image_path
        let raw_image_url := r.state.raw_image_url_handler detection_result.drawn_image_path
        let false_alert_feedback_text :=
          LINE_FALSE_ALERT_MSG_TEMPLATE detection_result.image_id ""
        let sendEffs := send_annotation_button_msg r.state image_url raw_image_url
          false_alert_feedback_text
        ⟨r.state,
          r.effects ++ Effect.imageUrl detection_result.drawn_image_path ::
            Effect.rawImageUrl detection_result.drawn_image_path :: sendEffs,
          none⟩
      else ⟨r.state, r.effects, none⟩

/-- Embeds `__init__`: record the watermark and configuration, create the
table when a database is configured, and initialise `audience_ids` either from
the caller-supplied set or by one synchronous `get_registered_audiences` call
(whose exceptions make construction fail); `raw_image_url_handler` defaults to
`image_url_handler`. -/
def init (image_url_handler : String → String)
    (raw_image_url_handler : Option (String → String))
    (audience_ids : Option (List String)) (update_audience_period : Nat)
    (detection_result_filter : Option (DetectionResult → Bool))
    (database : Bool) (now : Int) (storeResult : Except Unit (List String)) :
    Except PyError SenderState × List Effect :=
  let createEffs : List Effect := if database then [Effect.createTable] else []
  let base : SenderState :=
    { water_mark_time := now
      update_audience_period := update_audience_period
      detection_result_filter := detection_result_filter
      database := database
      audience_ids := []
      image_url_handler := image_url_handler
      raw_image_url_handler := raw_image_url_handler.getD image_url_handler }
  match audience_ids with
  | some ids => (Except.ok { base with audience_ids := ids }, createEffs)
  | none =>
    match get_registered_audiences base storeResult with
    | (Except.ok ids, effs) => (Except.ok { base with audience_ids := ids }, createEffs ++ effs)
    | (Except.error e, effs) => (Except.error e, createEffs ++ effs)

/-- A sequence of `notify` calls on one persistent object: the state threads
through the calls (the Python object survives an escaping exception, so later
calls still run), and the effects accumulate. -/
def handleSeq (s : SenderState) : List (DetectionResult × CallEnv) → SenderState × List Effect
  | [] => (s, [])
  | (dr, env) :: rest =>
    let r := handle s dr env
    let tail := handleSeq r.state rest
    (tail.1, r.effects ++ tail.2)

/-- Concrete thumbnail URL handler used in the concrete scenarios below. -/
def urlFn : String → String := fun p => String.append "https://img.example/" p

/-- Concrete raw-image URL handler used in the concrete scenarios below. -/
def rawFn : String → String := fun p => String.append "https://raw.example/" p

/-- Concrete detection event with identifier `evt-42`. -/
def drW : DetectionResult := ⟨"evt-42", "pikachu_test.png"⟩

/-- Filter that accepts every detection result. -/
def acceptAll : DetectionResult → Bool := fun _ => true

/-- Filter that rejects every detection result. -/
def rejectAll : DetectionResult → Bool := fun _ => false

/-- Sender with a 10-second refresh period, a configured database, and a
rejecting filter; water mark at time 0. -/
def sThrottle : SenderState :=
  { water_mark_time := 0
    update_audience_period := 10
    detection_result_filter := some rejectAll
    database := true
    audience_ids := ["U1"]
    image_url_handler := urlFn
    raw_image_url_handler := rawFn }

/-- Sender with a 5-second refresh period, a configured database, an
accepting filter, and a two-member roster; water mark at time 0. -/
def sDeliver : SenderState :=
  { water_mark_time := 0
    update_audience_period := 5
    detection_result_filter := some acceptAll
    database := true
    audience_ids := ["U1", "U2"]
    image_url_handler := urlFn
    raw_image_url_handler := rawFn }

/-- Sender constructed without a filter (`detection_result_filter=None`), no
database, caller-supplied roster. -/
def sNoFilter : SenderState :=
  { water_mark_time := 0
    update_audience_period := 0
    detection_result_filter := none
    database := false
    audience_ids := ["U1"]
    image_url_handler := urlFn
    raw_image_url_handler := urlFn }

/-- Sender with an empty roster and an accepting filter. -/
def sEmpty : SenderState :=
  { water_mark_time := 0
    update_audience_period := 0
    detection_result_filter := some acceptAll
    database := false
    audience_ids := []
    image_url_handler := urlFn
    raw_image_url_handler := rawFn }

/-- Sender with `update_audience_period = 0` (refresh disabled) but a
configured database. -/
def sPeriodZero : SenderState :=
  { water_mark_time := 0
    update_audience_period := 0
    detection_result_filter := some acceptAll
    database := true
    audience_ids := ["U1"]
    image_url_handler := urlFn
    raw_image_url_handler := rawFn }

/-- Sender with no database but a positive refresh period. -/
def sNoDb : SenderState :=
  { water_mark_time := 0
    update_audience_period := 10
    detection_result_filter := some acceptAll
    database := false
    audience_ids := ["U1"]
    image_url_handler := urlFn
    raw_image_url_handler := rawFn }

/-- Sender with an empty roster, an accepting filter, a configured database
and a 5-second refresh period; water mark at time 0. -/
def sEmptyDb : SenderState :=
  { water_mark_time := 0
    update_audience_period := 5
    detection_result_filter := some acceptAll
    database := true
    audience_ids := []
    image_url_handler := urlFn
    raw_image_url_handler := rawFn }

/-- Every effect `audience_update` performs is a store fetch: it touches no
URL handler and sends no message. -/
theorem audience_update_effects (s : SenderState) (env : CallEnv) :
    ∀ e ∈ (audience_update s env).effects, e = Effect.storeFetch := by
  unfold audience_update get_registered_audiences
  split
  · rename_i hc
    obtain ⟨hp, hdb⟩ := hc
    rw [hdb]
    split
    · cases env.storeResult <;> simp
    · simp
  · simp

/-- `audience_update` leaves the configured filter untouched. -/
theorem audience_update_preserves_filter (s : SenderState) (env : CallEnv) :
    (audience_update s env).state.detection_result_filter = s.detection_result_filter := by
  unfold audience_update
  split
  · split
    · split <;> rfl
    · rfl
  · rfl

/-- `audience_update` leaves the watermark untouched: the source never writes
`water_mark_time` after construction. -/
theorem audience_update_preserves_watermark (s : SenderState) (env : CallEnv) :
    (audience_update s env).state.water_mark_time = s.water_mark_time := by
  unfold audience_update
  split
  · split
    · split <;> rfl
    · rfl
  · rfl

/-- When `audience_update` raises, the state is left exactly as it was. -/
theorem audience_update_error_keeps_state (s : SenderState) (env : CallEnv)
    (herr : (audience_update s env).error.isSome = true) :
    (audience_update s env).state = s := by
  revert herr
  unfold audience_update
  split
  · split
    · split
      · intro herr
        exact absurd herr (by simp)
      · intro _
        rfl
    · intro herr
      exact absurd herr (by simp)
  · intro herr
    exact absurd herr (by simp)

/-- When `audience_update` performs no refresh at all (returns the state
unchanged with no effects and no error), `handle` leaves the state unchanged
and performs no store fetch. -/
theorem handle_no_update (s : SenderState) (dr : DetectionResult) (env : CallEnv)
    (hau : audience_update s env = ⟨s, [], none⟩) :
    (handle s dr env).state = s ∧ Effect.storeFetch ∉ (handle s dr env).effects := by
  unfold handle
  rw [hau]
  cases hfo : s.detection_result_filter with
  | none => simp [hfo]
  | some f =>
    cases hfd : f dr with
    | false => simp [hfo, hfd]
    | true =>
      cases hro : s.audience_ids with
      | nil => simp [hfo, hfd, send_annotation_button_msg, hro]
      | cons a tl => simp [hfo, hfd, send_annotation_button_msg, hro]

/-- With a zero period, `audience_update` is a no-op. -/
theorem audience_update_period_zero (s : SenderState) (env : CallEnv)
    (hp : s.update_audience_period = 0) :
    audience_update s env = ⟨s, [], none⟩ := by
  unfold audience_update
  simp [hp]

/-- With no database configured, `audience_update` is a no-op. -/
theorem audience_update_no_db (s : SenderState) (env : CallEnv)
    (hdb : s.database = false) :
    audience_update s env = ⟨s, [], none⟩ := by
  unfold audience_update
  simp [hdb]

/-- C1: the claimed refresh throttling does not hold on the code.  With
`update_audience_period = 10`, a sender constructed at time 0 and notified at
times 11 and 12 — two calls only one second apart — performs a store fetch on
BOTH calls, because `audience_update` never advances `water_mark_time`: after
the first successful refresh the watermark still reads 0, not 11. -/
theorem refetch_within_period_and_stale_watermark :
    Effect.storeFetch ∈ (handle sThrottle drW ⟨11, Except.ok ["U1"]⟩).effects ∧
    Effect.storeFetch ∈
      (handle (handle sThrottle drW ⟨11, Except.ok ["U1"]⟩).state drW
        ⟨12, Except.ok ["U1"]⟩).effects ∧
    (handle sThrottle drW ⟨11, Except.ok ["U1"]⟩).state.water_mark_time = 0 := by
  exact ⟨by decide, by decide, by decide⟩

/-- C2 counterexample: a failing store fetch during the roster refresh IS
surfaced as a failure of the notify call.  With a stale watermark and an
unreachable store, `_handle` ends with the store error having propagated and
only the store fetch performed: the accepting filter is never consulted, no
URL is resolved and nothing is multicast, although the roster is non-empty. -/
theorem store_failure_surfaces_as_call_failure :
    (handle sDeliver drW ⟨10, Except.error ()⟩).error = some PyError.storeUnavailable ∧
    (handle sDeliver drW ⟨10, Except.error ()⟩).effects = [Effect.storeFetch] := by
  exact ⟨by decide, by decide⟩

/-- C2 amended: when the refresh is due (non-zero period, database configured,
more than a period elapsed) and the store fetch fails, the exception
propagates out of the notify call: the call terminates with the store error
after performing only the fetch, before the filter, compose and deliver steps;
the stale roster itself (indeed the whole state) is retained. -/
theorem store_failure_propagates (s : SenderState) (dr : DetectionResult) (env : CallEnv)
    (hp : s.update_audience_period ≠ 0) (hdb : s.database = true)
    (hstale : (s.update_audience_period : Int) < env.now - s.water_mark_time)
    (hfail : env.storeResult = Except.error ()) :
    handle s dr env = ⟨s, [Effect.storeFetch], some PyError.storeUnavailable⟩ := by
  have hau : audience_update s env =
      ⟨s, [Effect.storeFetch], some PyError.storeUnavailable⟩ := by
    unfold audience_update get_registered_audiences
    rw [hdb, hfail]
    simp [hp, hstale]
  unfold handle
  rw [hau]

/-- C2 amended, witnessed on the concrete scenario of the counterexample. -/
theorem store_failure_propagates_witness :
    sDeliver.update_audience_period ≠ 0 ∧ sDeliver.database = true ∧
    ((sDeliver.update_audience_period : Int) < 10 - sDeliver.water_mark_time) ∧
    handle sDeliver drW ⟨10, Except.error ()⟩ =
      ⟨sDeliver, [Effect.storeFetch], some PyError.storeUnavailable⟩ :=
  ⟨by decide, rfl, by decide,
    store_failure_propagates sDeliver drW ⟨10, Except.error ()⟩ (by decide) rfl (by decide) rfl⟩

/-- C3 counterexample: constructing a sender with no filter capability
(`detection_result_filter=None`) succeeds — construction returns the state
with `detection_result_filter = none` and raises nothing — and the failure
only appears later, when `notify` invokes the missing filter and the call
raises the `None`-not-callable error after performing no effect. -/
theorem init_without_filter_succeeds :
    (init urlFn none (some ["U1"]) 0 none false 0 (Except.ok [])).1 = Except.ok sNoFilter ∧
    (handle sNoFilter drW ⟨0, Except.ok []⟩).error = some PyError.filterNotCallable ∧
    (handle sNoFilter drW ⟨0, Except.ok []⟩).effects = [] :=
  ⟨rfl, rfl, rfl⟩

/-- C3 amended: a missing filter is not checked at construction time — any
construction with `detection_result_filter=None` and a caller-supplied roster
succeeds — and every later notify call whose refresh step raises nothing fails
by raising when it calls the absent filter, performing nothing beyond the
refresh (so misconfiguration surfaces at call time, not as a silent
accept-all). -/
theorem missing_filter_fails_at_call_time :
    (∀ (h : String → String) (rh : Option (String → String)) (ids : List String)
        (p : Nat) (db : Bool) (now : Int) (sr : Except Unit (List String)),
      (init h rh (some ids) p none db now sr).1 =
        Except.ok
          { water_mark_time := now
            update_audience_period := p
            detection_result_filter := none
            database := db
            audience_ids := ids
            image_url_handler := h
            raw_image_url_handler := rh.getD h }) ∧
    (∀ (s : SenderState) (dr : DetectionResult) (env : CallEnv),
      s.detection_result_filter = none → (audience_update s env).error = none →
      (handle s dr env).error = some PyError.filterNotCallable ∧
      (handle s dr env).effects = (audience_update s env).effects) := by
  constructor
  · intro h rh ids p db now sr
    rfl
  · intro s dr env hf herr
    have hpf := audience_update_preserves_filter s env
    rw [hf] at hpf
    unfold handle
    rcases hr : audience_update s env with ⟨st, effs, err⟩
    rw [hr] at hpf herr
    obtain rfl : err = none := herr
    simp only at hpf
    simp [hpf]

/-- C3 amended, witnessed at a concrete configuration. -/
theorem missing_filter_fails_at_call_time_witness :
    (init urlFn none (some ["U1"]) 5 none true 0 (Except.ok [])).1 =
      Except.ok
        { water_mark_time := 0
          update_audience_period := 5
          detection_result_filter := none
          database := true
          audience_ids := ["U1"]
          image_url_handler := urlFn
          raw_image_url_handler := urlFn } ∧
    sNoFilter.detection_result_filter = none ∧
    (handle sNoFilter drW ⟨0, Except.ok []⟩).error = some PyError.filterNotCallable :=
  ⟨missing_filter_fails_at_call_time.1 urlFn none ["U1"] 5 true 0 (Except.ok []), rfl,
    (missing_filter_fails_at_call_time.2 sNoFilter drW ⟨0, Except.ok []⟩ rfl rfl).1⟩

/-- C4: whenever a refresh attempt raises (the store fetch failed, or the
database check failed), the roster after the attempt is exactly the roster
before it — indeed the whole sender state is untouched: `audience_update`
assigns `audience_ids` only after the fetch has returned successfully, so the
replacement is atomic replace-or-keep. -/
theorem refresh_failure_keeps_roster (s : SenderState) (env : CallEnv)
    (herr : (audience_update s env).error.isSome = true) :
    (audience_update s env).state.audience_ids = s.audience_ids ∧
    (audience_update s env).state = s := by
  have hst := audience_update_error_keeps_state s env herr
  exact ⟨by rw [hst], hst⟩

/-- C4, witnessed on a refresh attempt whose store fetch fails. -/
theorem refresh_failure_keeps_roster_witness :
    (audience_update sDeliver ⟨10, Except.error ()⟩).error.isSome = true ∧
    (audience_update sDeliver ⟨10, Except.error ()⟩).state.audience_ids =
      sDeliver.audience_ids :=
  ⟨by decide, (refresh_failure_keeps_roster sDeliver ⟨10, Except.error ()⟩ (by decide)).1⟩

/-- C5: when the configured filter rejects the event, the notify call performs
nothing beyond the refresh step: the whole call result equals that of
`audience_update` alone (no URL resolver call, no composed message, no
multicast), and consequently every effect of the call is at most the refresh's
store fetch. -/
theorem filter_false_no_further_action (s : SenderState) (dr : DetectionResult)
    (env : CallEnv) (f : DetectionResult → Bool)
    (hf : s.detection_result_filter = some f) (hfd : f dr = false) :
    handle s dr env = audience_update s env ∧
    ∀ e ∈ (handle s dr env).effects, e = Effect.storeFetch := by
  have heq : handle s dr env = audience_update s env := by
    have hpf := audience_update_preserves_filter s env
    rw [hf] at hpf
    unfold handle
    rcases hr : audience_update s env with ⟨st, effs, err⟩
    rw [hr] at hpf
    simp only at hpf
    cases err with
    | some e => rfl
    | none => simp [hpf, hfd]
  refine ⟨heq, ?_⟩
  rw [heq]
  exact audience_update_effects s env

/-- C5, witnessed with the rejecting filter of the throttling scenario. -/
theorem filter_false_no_further_action_witness :
    sThrottle.detection_result_filter = some rejectAll ∧ rejectAll drW = false ∧
    handle sThrottle drW ⟨1, Except.ok []⟩ = audience_update sThrottle ⟨1, Except.ok []⟩ :=
  ⟨rfl, rfl,
    (filter_false_no_further_action sThrottle drW ⟨1, Except.ok []⟩ rejectAll rfl rfl).1⟩

/-- C6: the feedback token composed under the default empty suffix is a pure
deterministic function of the event identifier, it is injective (distinct
event identifiers yield distinct tokens), and for the identifier `evt-42` it
equals `false_alert_evt-42_`. -/
theorem feedback_token_pure_injective :
    (∀ a b : String, a = b →
      LINE_FALSE_ALERT_MSG_TEMPLATE a "" = LINE_FALSE_ALERT_MSG_TEMPLATE b "") ∧
    (∀ a b : String, a ≠ b →
      LINE_FALSE_ALERT_MSG_TEMPLATE a "" ≠ LINE_FALSE_ALERT_MSG_TEMPLATE b "") ∧
    LINE_FALSE_ALERT_MSG_TEMPLATE "evt-42" "" = "false_alert_evt-42_" := by
  refine ⟨fun a b hab => by rw [hab], fun a b hab hc => hab ?_, rfl⟩
  unfold LINE_FALSE_ALERT_MSG_TEMPLATE at hc
  have hd := congrArg String.data hc
  simp only [String.data_append, List.append_nil] at hd
  exact String.ext (List.append_cancel_left (List.append_cancel_right hd))

/-- C6, witnessed on two distinct event identifiers. -/
theorem feedback_token_pure_injective_witness :
    ("evt-1" : String) ≠ "evt-2" ∧
    LINE_FALSE_ALERT_MSG_TEMPLATE "evt-1" "" ≠ LINE_FALSE_ALERT_MSG_TEMPLATE "evt-2" "" :=
  ⟨by decide, feedback_token_pure_injective.2.1 "evt-1" "evt-2" (by decide)⟩

/-- C7 counterexample: an empty-roster notify call does NOT always complete
without error.  With an empty roster, an accepting filter, a configured
database and a due refresh whose store fetch fails, the call ends with the
store error having propagated — the roster also stays empty and, as always
with an empty roster, nothing is multicast. -/
theorem empty_roster_call_can_fail :
    sEmptyDb.audience_ids = [] ∧
    (handle sEmptyDb drW ⟨10, Except.error ()⟩).state.audience_ids = [] ∧
    (handle sEmptyDb drW ⟨10, Except.error ()⟩).error = some PyError.storeUnavailable := by
  exact ⟨rfl, by decide, by decide⟩

/-- C7 amended: an empty roster by itself is a skip, never a failure.  At the
delivery level, `send_annotation_button_msg` with an empty `audience_ids`
performs no multicast at all; for EVERY notify call whose roster (after the
refresh step) is empty, nothing is ever multicast, whatever the filter or the
errors of the call; and such a call ends without error whenever the rest of
the call is healthy — a filter is configured and the refresh step raised
nothing — though it can still fail for reasons unrelated to the roster (a
failing store fetch, a missing filter). -/
theorem empty_roster_skips_broadcast :
    (∀ (s : SenderState) (iu riu txt : String), s.audience_ids = [] →
      send_annotation_button_msg s iu riu txt = []) ∧
    (∀ (s : SenderState) (dr : DetectionResult) (env : CallEnv),
      (audience_update s env).state.audience_ids = [] →
      ∀ (rs : List String) (m : ButtonsMsg),
        Effect.multicast rs m ∉ (handle s dr env).effects) ∧
    (∀ (s : SenderState) (dr : DetectionResult) (env : CallEnv)
        (f : DetectionResult → Bool),
      s.detection_result_filter = some f → (audience_update s env).error = none →
      (audience_update s env).state.audience_ids = [] →
      (handle s dr env).error = none) := by
  refine ⟨?_, ?_, ?_⟩
  · intro s iu riu txt hro
    unfold send_annotation_button_msg
    simp [hro]
  · intro s dr env hro
    have heffs := audience_update_effects s env
    unfold handle
    rcases hr : audience_update s env with ⟨st, effs, err⟩
    rw [hr] at heffs hro
    simp only at heffs hro
    cases err with
    | some e =>
      simp
      intro rs m hmem
      have := heffs _ hmem
      simp at this
    | none =>
      cases hfo : st.detection_result_filter with
      | none =>
        simp [hfo]
        intro rs m hmem
        have := heffs _ hmem
        simp at this
      | some f =>
        cases hfd : f dr with
        | false =>
          simp [hfo, hfd]
          intro rs m hmem
          have := heffs _ hmem
          simp at this
        | true =>
          unfold send_annotation_button_msg
          simp [hfo, hfd, hro]
          intro rs m hmem
          have := heffs _ hmem
          simp at this
  · intro s dr env f hf herr hro
    have hpf := audience_update_preserves_filter s env
    rw [hf] at hpf
    unfold handle
    rcases hr : audience_update s env with ⟨st, effs, err⟩
    rw [hr] at hpf herr hro
    simp only at hpf herr hro
    obtain rfl : err = none := herr
    simp only [hpf]
    cases hfd : f dr <;> simp [hfd]

/-- C7 amended, witnessed on a sender whose roster is empty and whose filter
accepts. -/
theorem empty_roster_skips_broadcast_witness :
    sEmpty.audience_ids = [] ∧
    send_annotation_button_msg sEmpty "iu" "riu" "txt" = [] ∧
    Effect.multicast ["U1"] ⟨"iu", "txt", "riu"⟩ ∉
      (handle sEmpty drW ⟨0, Except.ok []⟩).effects ∧
    sEmpty.detection_result_filter = some acceptAll ∧
    (handle sEmpty drW ⟨0, Except.ok []⟩).error = none :=
  ⟨rfl, empty_roster_skips_broadcast.1 sEmpty "iu" "riu" "txt" rfl,
    empty_roster_skips_broadcast.2.1 sEmpty drW ⟨0, Except.ok []⟩ rfl
      ["U1"] ⟨"iu", "txt", "riu"⟩,
    rfl,
    empty_roster_skips_broadcast.2.2 sEmpty drW ⟨0, Except.ok []⟩ acceptAll rfl rfl rfl⟩

/-- With `update_audience_period = 0`, a single notify call leaves the whole
state unchanged and performs no store fetch. -/
theorem handle_period_zero (s : SenderState) (dr : DetectionResult) (env : CallEnv)
    (hp : s.update_audience_period = 0) :
    (handle s dr env).state = s ∧ Effect.storeFetch ∉ (handle s dr env).effects :=
  handle_no_update s dr env (audience_update_period_zero s env hp)

/-- C8: with `update_audience_period = 0`, no sequence of notify calls ever
triggers a store fetch or changes the state: the roster stays exactly the
contents fixed at construction. -/
theorem period_zero_roster_fixed (s : SenderState)
    (calls : List (DetectionResult × CallEnv)) (hp : s.update_audience_period = 0) :
    (handleSeq s calls).1 = s ∧ Effect.storeFetch ∉ (handleSeq s calls).2 := by
  induction calls generalizing s with
  | nil => exact ⟨rfl, by simp [handleSeq]⟩
  | cons c rest ih =>
    obtain ⟨dr, env⟩ := c
    have hstep := handle_period_zero s dr env hp
    have hrest := ih (handle s dr env).state (by rw [hstep.1]; exact hp)
    constructor
    · show (handleSeq (handle s dr env).state rest).1 = s
      rw [hrest.1, hstep.1]
    · show Effect.storeFetch ∉
        (handle s dr env).effects ++ (handleSeq (handle s dr env).state rest).2
      rw [List.mem_append]
      rintro (hmem | hmem)
      · exact hstep.2 hmem
      · exact hrest.2 hmem

/-- C8, witnessed on a two-call sequence against a configured database with
changed store contents: the roster still never moves. -/
theorem period_zero_roster_fixed_witness :
    sPeriodZero.update_audience_period = 0 ∧
    (handleSeq sPeriodZero
      [(drW, ⟨100, Except.ok ["Z"]⟩), (drW, ⟨200, Except.ok ["Z"]⟩)]).1 = sPeriodZero :=
  ⟨rfl, (period_zero_roster_fixed sPeriodZero
    [(drW, ⟨100, Except.ok ["Z"]⟩), (drW, ⟨200, Except.ok ["Z"]⟩)] rfl).1⟩

/-- C9: construction-time roster policy.  (a) With a caller-supplied roster,
construction succeeds with exactly that roster and performs no store fetch;
(b) with no supplied roster and no database, construction raises
(`get_registered_audiences` raises when the database is unset); (c) with no
supplied roster but a configured database, exactly one synchronous store fetch
occurs during construction. -/
theorem construction_roster_policy :
    (∀ (h : String → String) (rh : Option (String → String)) (ids : List String)
        (p : Nat) (f : Option (DetectionResult → Bool)) (db : Bool) (now : Int)
        (sr : Except Unit (List String)),
      (init h rh (some ids) p f db now sr).1 =
        Except.ok
          { water_mark_time := now
            update_audience_period := p
            detection_result_filter := f
            database := db
            audience_ids := ids
            image_url_handler := h
            raw_image_url_handler := rh.getD h } ∧
      Effect.storeFetch ∉ (init h rh (some ids) p f db now sr).2) ∧
    (∀ (h : String → String) (rh : Option (String → String)) (p : Nat)
        (f : Option (DetectionResult → Bool)) (now : Int)
        (sr : Except Unit (List String)),
      (init h rh none p f false now sr).1 = Except.error PyError.databaseNotSet) ∧
    (∀ (h : String → String) (rh : Option (String → String)) (p : Nat)
        (f : Option (DetectionResult → Bool)) (now : Int)
        (sr : Except Unit (List String)),
      List.countP (fun e => decide (e = Effect.storeFetch))
        (init h rh none p f true now sr).2 = 1) := by
  refine ⟨fun h rh ids p f db now sr => ⟨rfl, ?_⟩, fun h rh p f now sr => rfl,
    fun h rh p f now sr => ?_⟩
  · unfold init
    cases db <;> simp
  · unfold init get_registered_audiences
    cases sr <;> rfl

/-- C9, witnessed at concrete configurations for each of the three cases. -/
theorem construction_roster_policy_witness :
    (init urlFn none (some ["U1", "U2"]) 3 none true 7 (Except.error ())).1 =
      Except.ok
        { water_mark_time := 7
          update_audience_period := 3
          detection_result_filter := none
          database := true
          audience_ids := ["U1", "U2"]
          image_url_handler := urlFn
          raw_image_url_handler := urlFn } ∧
    (init urlFn none none 3 none false 7 (Except.ok ["U1"])).1 =
      Except.error PyError.databaseNotSet ∧
    List.countP (fun e => decide (e = Effect.storeFetch))
      (init urlFn none none 3 none true 7 (Except.ok ["U1"])).2 = 1 :=
  ⟨(construction_roster_policy.1 urlFn none ["U1", "U2"] 3 none true 7 (Except.error ())).1,
    construction_roster_policy.2.1 urlFn none 3 none 7 (Except.ok ["U1"]),
    construction_roster_policy.2.2 urlFn none 3 none 7 (Except.ok ["U1"])⟩

/-- C10: with no database configured, a notify call never refreshes: the whole
state — in particular the roster and the watermark — is unchanged and no store
fetch happens, whatever the period and however much time has elapsed. -/
theorem no_database_no_refresh (s : SenderState) (dr : DetectionResult) (env : CallEnv)
    (hdb : s.database = false) :
    (handle s dr env).state.audience_ids = s.audience_ids ∧
    (handle s dr env).state.water_mark_time = s.water_mark_time ∧
    (handle s dr env).state = s ∧
    Effect.storeFetch ∉ (handle s dr env).effects := by
  have hmain := handle_no_update s dr env (audience_update_no_db s env hdb)
  exact ⟨by rw [hmain.1], by rw [hmain.1], hmain.1, hmain.2⟩

/-- C10, witnessed with a 10-second period and 100 elapsed seconds: more than
a full period has passed, yet nothing is fetched and nothing changes. -/
theorem no_database_no_refresh_witness :
    sNoDb.database = false ∧ sNoDb.update_audience_period = 10 ∧
    (100 : Int) - sNoDb.water_mark_time > (sNoDb.update_audience_period : Int) ∧
    (handle sNoDb drW ⟨100, Except.ok ["Z"]⟩).state.audience_ids = sNoDb.audience_ids ∧
    (handle sNoDb drW ⟨100, Except.ok ["Z"]⟩).state.water_mark_time =
      sNoDb.water_mark_time :=
  ⟨rfl, rfl, by decide,
    (no_database_no_refresh sNoDb drW ⟨100, Except.ok ["Z"]⟩ rfl).1,
    (no_database_no_refresh sNoDb drW ⟨100, Except.ok ["Z"]⟩ rfl).2.1⟩
